import Mathlib

/-!
The sample samples/show-version.cpp.

A shallow embedding of the sample program

    int main()
    {
        std::cout << "OpenSSL version: " << OpenSSL_version(OPENSSL_FULL_VERSION_STRING) << std::endl;
        std::cout << "OpenSSL CPU info: " << OpenSSL_version(OPENSSL_CPU_INFO) << std::endl;
    }

The program is two output statements.  The embedding threads an explicit
process state (the three standard streams, the buffer and the state of
std::cout, and a log of what the process did) through the operations the two
statements are built from, and takes the OpenSSL library, which is not part of
the repository, as a parameter: a call of OpenSSL_version returns a string,
returns a null pointer, or does not return.
-/

namespace ShowVersion

/-! ## The library boundary -/

/-- Argument of OpenSSL_version.  The sample uses the two selector constants
OPENSSL_FULL_VERSION_STRING and OPENSSL_CPU_INFO of the OpenSSL headers; their
numeric values are not part of the repository and play no role.  Every other
value of the C parameter (an int) is an other selector. -/
inductive Selector where
  | OPENSSL_FULL_VERSION_STRING
  | OPENSSL_CPU_INFO
  | other (code : Int)
  deriving DecidableEq, Repr

/-- What a call of OpenSSL_version (declared as returning const char*) can do,
as main sees it. -/
inductive Answer where
  /-- The call returns a C string. -/
  | text (s : String)
  /-- The call returns a null pointer. -/
  | null
  /-- The call does not return: the library ends the process with exit(status),
  which delivers what the output buffers hold. -/
  | exits (status : Int)
  /-- The call does not return: the process is killed inside it (abort, a
  signal), and what the output buffers hold is lost. -/
  | aborts
  deriving DecidableEq, Repr

/-- The external library: the answer of OpenSSL_version to each selector. -/
abbrev Library := Selector → Answer

/-! ## Process state -/

/-- The standard streams of the process, with the state of std::cout. -/
structure Streams where
  /-- Bytes waiting on standard input, not read so far. -/
  stdin : String
  /-- Bytes delivered to standard output. -/
  stdout : String
  /-- Bytes delivered to standard error. -/
  stderr : String
  /-- Bytes inserted into std::cout and not flushed so far. -/
  pending : String
  /-- The stream std::cout is in its failed state (badbit is set). -/
  failed : Bool
  deriving DecidableEq, Repr

/-- What the process does, one step at a time. -/
inductive Event where
  /-- Insertion of a text into std::cout. -/
  | insert (s : String)
  /-- Insertion of a null pointer of type const char* into std::cout. -/
  | insertNull
  /-- Flush of std::cout. -/
  | flush
  /-- Call of OpenSSL_version with the given selector; seen is the state of
  the streams at the moment the call is made. -/
  | query (sel : Selector) (seen : Streams)
  /-- End of the process through exit: the buffered output is delivered. -/
  | deliver
  deriving DecidableEq, Repr

/-- Effect of one step on the streams.  An insertion extends the buffer of
std::cout and a flush delivers the buffer to standard output; both do nothing
when the stream is in its failed state.  Inserting a null pointer puts the
stream in its failed state (the C++ standard leaves this insertion undefined;
this is what the GNU C++ library does, and a library that crashes there
behaves as the answer aborts).  A library query touches no stream.  At exit
the buffered bytes are delivered, whatever the state of the stream. -/
def Event.apply : Event → Streams → Streams
  | .insert s, σ => if σ.failed then σ else { σ with pending := σ.pending ++ s }
  | .insertNull, σ => { σ with failed := true }
  | .flush, σ =>
    if σ.failed then σ else { σ with stdout := σ.stdout ++ σ.pending, pending := "" }
  | .query _ _, σ => σ
  | .deliver, σ => { σ with stdout := σ.stdout ++ σ.pending, pending := "" }

/-- Process state: the streams and the log of the steps made so far, oldest
first. -/
structure Process where
  streams : Streams
  log : List Event
  deriving DecidableEq, Repr

/-- Perform one step: apply its effect and record it. -/
def Process.emit (p : Process) (e : Event) : Process :=
  { streams := e.apply p.streams, log := p.log ++ [e] }

/-- Texts inserted into std::cout by a log, in order. -/
def insertions : List Event → List String
  | [] => []
  | .insert s :: es => s :: insertions es
  | _ :: es => insertions es

/-! ## The operations of the two statements -/

/-- Stream insertion of a C string: std::cout << s. -/
def cout_insert (s : String) (p : Process) : Process :=
  p.emit (.insert s)

/-- Stream insertion of a null pointer of type const char*. -/
def cout_insert_null (p : Process) : Process :=
  p.emit .insertNull

/-- The manipulator std::endl: insert a line terminator, then flush. -/
def endl (p : Process) : Process :=
  (p.emit (.insert "\n")).emit .flush

/-- A call OpenSSL_version(sel): the call is made, with the streams as they
are at that moment, and the library answers. -/
def OpenSSL_version (lib : Library) (sel : Selector) (p : Process) :
    Answer × Process :=
  (lib sel, p.emit (.query sel p.streams))

/-- End of the process through exit, after main returns or when the library
calls exit: the buffered output is delivered. -/
def Process.atExit (p : Process) : Process :=
  p.emit .deliver

/-- Order in which the operands of  std::cout << label << OpenSSL_version(sel)
are evaluated.  Since C++17 the left operand of << is evaluated first, so the
label is inserted before the library is called; before C++17 the compiler may
also make the call first.  In both orders the label is inserted before the
text the library returned. -/
inductive EvalOrder where
  | leftToRight
  | callFirst
  deriving DecidableEq, Repr

/-- How a run ends: main returns a status, or the library ends the process
inside a query, with exit(status) or by a kill. -/
inductive Outcome where
  | exited (status : Int)
  | libraryExit (status : Int)
  | aborted
  deriving DecidableEq, Repr

/-- The part of a statement after the library answered a: the insertion of
what the call returned, then std::endl; or the end of the run when the call
did not return.  The argument label is the insertion of the label when it
comes after the call, the identity otherwise. -/
def afterCall (label : Process → Process) (a : Answer) (q : Process) :
    Except (Process × Outcome) Process :=
  match a with
  | .text s => .ok (endl (cout_insert s (label q)))
  | .null => .ok (endl (cout_insert_null (label q)))
  | .exits n => .error (q.atExit, .libraryExit n)
  | .aborts => .error (q, .aborted)

/-- One statement of main:
std::cout << label << OpenSSL_version(sel) << std::endl;
The result is ok with the state after the statement, or error with the state
and outcome of a run that ended inside the query. -/
def statement (ord : EvalOrder) (lib : Library) (label : String) (sel : Selector)
    (p : Process) : Except (Process × Outcome) Process :=
  match ord with
  | .leftToRight =>
    match OpenSSL_version lib sel (cout_insert label p) with
    | (a, q) => afterCall id a q
  | .callFirst =>
    match OpenSSL_version lib sel p with
    | (a, q) => afterCall (cout_insert label) a q

/-- The function main of samples/show-version.cpp: the two statements in
order; flowing off the end of main returns 0. -/
def main (ord : EvalOrder) (lib : Library) (p : Process) : Process × Outcome :=
  match statement ord lib "OpenSSL version: " .OPENSSL_FULL_VERSION_STRING p with
  | .error r => r
  | .ok p1 =>
    match statement ord lib "OpenSSL CPU info: " .OPENSSL_CPU_INFO p1 with
    | .error r => r
    | .ok p2 => (p2, .exited 0)

/-- State of a process at start: nothing written, nothing done, std::cout in
its good state. -/
def Process.start (stdin : String) : Process :=
  { streams := { stdin := stdin, stdout := "", stderr := "", pending := "", failed := false },
    log := [] }

/-- A run of the program: main from the start of the process, then, when main
returns, the end of the process through exit.  main is declared without
parameters, so the command line does not reach it. -/
def run (_argv : List String) (stdin : String) (ord : EvalOrder) (lib : Library) :
    Process × Outcome :=
  match main ord lib (Process.start stdin) with
  | (p, .exited n) => (p.atExit, .exited n)
  | r => r

/-! ## Observations used by the statements below -/

/-- A text holds no line terminator. -/
def NoNewline (s : String) : Prop := '\n' ∉ s.data

instance (s : String) : Decidable (NoNewline s) := by
  unfold NoNewline; infer_instance

/-- Lines of a character sequence: cur is the line being read, last character
first.  A line ends at each line terminator; characters after the last
terminator form a last, unterminated line. -/
def linesAux : List Char → List Char → List (List Char)
  | cur, [] => if cur = [] then [] else [cur.reverse]
  | cur, c :: cs => if c = '\n' then cur.reverse :: linesAux [] cs else linesAux (c :: cur) cs

/-- Lines of a text, without their terminators. -/
def lines (s : String) : List String :=
  (linesAux [] s.data).map String.mk

/-- A library answering the full-version query with a and the CPU-info query
with b, and every other selector with the text OpenSSL gives for an unknown
selector. -/
def answeringWith (a b : Answer) : Library
  | .OPENSSL_FULL_VERSION_STRING => a
  | .OPENSSL_CPU_INFO => b
  | .other _ => .text "not available"

/-- A library returning the strings v and c to the two queries of the sample. -/
def answering (v c : String) : Library :=
  answeringWith (.text v) (.text c)

/-! ## Auxiliary facts -/

/-- Reading up to the first line terminator: the characters before it, after
the ones already read, form the first line. -/
theorem linesAux_first (v rest : List Char) (h : '\n' ∉ v) (cur : List Char) :
    linesAux cur (v ++ '\n' :: rest) = (cur.reverse ++ v) :: linesAux [] rest := by
  induction v generalizing cur with
  | nil => simp [linesAux]
  | cons a v ih =>
    have ha : a ≠ '\n' := fun e => h (by simp [e])
    have hv : '\n' ∉ v := fun m => h (List.mem_cons_of_mem a m)
    simp [linesAux, ha, ih hv]

/-- A sequence is cut at its first line terminator in one way only. -/
theorem cut_unique (v v' r r' : List Char) (h : '\n' ∉ v) (h' : '\n' ∉ v')
    (e : v ++ '\n' :: r = v' ++ '\n' :: r') : v = v' ∧ r = r' := by
  induction v generalizing v' with
  | nil =>
    cases v' with
    | nil => simpa using e
    | cons b v' =>
      simp only [List.nil_append, List.cons_append, List.cons.injEq] at e
      exact absurd e.1 (fun eb => h' (by simp [← eb]))
  | cons a v ih =>
    cases v' with
    | nil =>
      simp only [List.nil_append, List.cons_append, List.cons.injEq] at e
      exact absurd e.1 (fun ea => h (by simp [ea]))
    | cons b v' =>
      simp only [List.cons_append, List.cons.injEq] at e
      have hv : '\n' ∉ v := fun m => h (List.mem_cons_of_mem a m)
      have hv' : '\n' ∉ v' := fun m => h' (List.mem_cons_of_mem b m)
      obtain ⟨e1, e2⟩ := ih v' hv hv' e.2
      exact ⟨by rw [e.1, e1], e2⟩

/-- State and outcome of main when both queries return a string and std::cout
is in its good state: the two lines are delivered after what was on standard
output and in the buffer, the buffer is empty, the other streams are as
before, and main returns 0. -/
theorem main_returns (ord : EvalOrder) (lib : Library) (p : Process) (v c : String)
    (hg : p.streams.failed = false)
    (hv : lib .OPENSSL_FULL_VERSION_STRING = .text v) (hc : lib .OPENSSL_CPU_INFO = .text c) :
    (main ord lib p).1.streams =
        { stdin := p.streams.stdin,
          stdout := p.streams.stdout ++ p.streams.pending ++
            "OpenSSL version: " ++ v ++ "\n" ++ "OpenSSL CPU info: " ++ c ++ "\n",
          stderr := p.streams.stderr,
          pending := "",
          failed := false }
      ∧ (main ord lib p).2 = .exited 0 := by
  cases ord <;>
    simp [main, statement, afterCall, OpenSSL_version, cout_insert, endl, Process.emit,
      Event.apply, hg, hv, hc, String.ext_iff]

/-- Standard output of a run from the start of the process when both queries
return a string. -/
theorem run_stdout (argv : List String) (stdin : String) (ord : EvalOrder) (lib : Library)
    (v c : String)
    (hv : lib .OPENSSL_FULL_VERSION_STRING = .text v) (hc : lib .OPENSSL_CPU_INFO = .text c) :
    (run argv stdin ord lib).1.streams.stdout =
      "OpenSSL version: " ++ v ++ "\n" ++ "OpenSSL CPU info: " ++ c ++ "\n" := by
  cases ord <;>
    simp [run, main, statement, afterCall, OpenSSL_version, cout_insert, endl, Process.emit,
      Process.atExit, Event.apply, Process.start, hv, hc, String.ext_iff]

/-- The map from the two library texts to the output is not one-to-one when
the version text may hold a line terminator. -/
theorem stdout_not_injective :
    (run [] "" .leftToRight (answering "a\nOpenSSL CPU info: b" "c")).1.streams.stdout
      = (run [] "" .leftToRight (answering "a" "b\nOpenSSL CPU info: c")).1.streams.stdout := by
  decide

/-! ## The claims -/

/-- C1: for the strings v and c the library returns for the full-version and
the CPU-info selector, the text main writes to standard output is exactly
"OpenSSL version: " ++ v ++ "\n" ++ "OpenSSL CPU info: " ++ c ++ "\n", all of
it delivered (nothing is left in the buffer of std::cout). -/
theorem stdout_exact (argv : List String) (stdin : String) (ord : EvalOrder) (lib : Library)
    (v c : String)
    (hv : lib .OPENSSL_FULL_VERSION_STRING = .text v) (hc : lib .OPENSSL_CPU_INFO = .text c) :
    (run argv stdin ord lib).1.streams.stdout =
        "OpenSSL version: " ++ v ++ "\n" ++ "OpenSSL CPU info: " ++ c ++ "\n"
      ∧ (run argv stdin ord lib).1.streams.pending = "" := by
  refine ⟨run_stdout argv stdin ord lib v c hv hc, ?_⟩
  cases ord <;>
    simp [run, main, statement, afterCall, OpenSSL_version, cout_insert, endl, Process.emit,
      Process.atExit, Event.apply, Process.start, hv, hc]

/-- Witness of C1: a library answering "3.0.13" and "CPUINFO: N/A". -/
theorem stdout_exact_witness :
    (run [] "" .leftToRight (answering "3.0.13" "CPUINFO: N/A")).1.streams.stdout =
        "OpenSSL version: " ++ "3.0.13" ++ "\n" ++ "OpenSSL CPU info: " ++ "CPUINFO: N/A" ++ "\n"
      ∧ (run [] "" .leftToRight (answering "3.0.13" "CPUINFO: N/A")).1.streams.pending = "" :=
  stdout_exact [] "" .leftToRight (answering "3.0.13" "CPUINFO: N/A") "3.0.13" "CPUINFO: N/A"
    rfl rfl

/-- C2: when both library queries return a string, main ends with exit status
0; and main has no path ending with another status: whatever the library
does, in whatever state main starts, a status main returns is 0. -/
theorem exit_status_zero (ord : EvalOrder) (lib : Library) (p : Process) (v c : String)
    (hv : lib .OPENSSL_FULL_VERSION_STRING = .text v) (hc : lib .OPENSSL_CPU_INFO = .text c) :
    (main ord lib p).2 = .exited 0
      ∧ ∀ (ord' : EvalOrder) (lib' : Library) (p' : Process) (n : Int),
          (main ord' lib' p').2 = .exited n → n = 0 := by
  constructor
  · cases ord <;> simp [main, statement, afterCall, OpenSSL_version, hv, hc]
  · intro ord' lib' p' n h
    cases ord' <;>
      cases h1 : lib' .OPENSSL_FULL_VERSION_STRING <;>
      cases h2 : lib' .OPENSSL_CPU_INFO <;>
      simp [main, statement, afterCall, OpenSSL_version, h1, h2] at h <;>
      exact h.symm

/-- Witness of C2: a library answering "3.0.13" and "CPUINFO: N/A". -/
theorem exit_status_zero_witness :
    (main .leftToRight (answering "3.0.13" "CPUINFO: N/A") (Process.start "")).2 = .exited 0
      ∧ ∀ (ord' : EvalOrder) (lib' : Library) (p' : Process) (n : Int),
          (main ord' lib' p').2 = .exited n → n = 0 :=
  exit_status_zero .leftToRight (answering "3.0.13" "CPUINFO: N/A") (Process.start "")
    "3.0.13" "CPUINFO: N/A" rfl rfl

/-- C3, as stated, fails: when the version text the library returns holds a
line terminator, standard output is not two lines, a version-label line and a
CPU-info-label line. -/
theorem stdout_two_lines_counterexample :
    ¬ ∃ t1 t2 : String, t1 ≠ "" ∧ t2 ≠ "" ∧
        lines (run [] "" .leftToRight
            (answering "3.0.13\nbeta" "CPUINFO: N/A")).1.streams.stdout
          = ["OpenSSL version" ++ t1, "OpenSSL CPU info" ++ t2] := by
  rintro ⟨t1, t2, -, -, h⟩
  have e : lines (run [] "" .leftToRight
        (answering "3.0.13\nbeta" "CPUINFO: N/A")).1.streams.stdout
      = ["OpenSSL version: 3.0.13", "beta", "OpenSSL CPU info: CPUINFO: N/A"] := by decide
  rw [e] at h
  simp at h

/-- C3, amended: when both queries return a string and neither string holds a
line terminator, standard output is exactly two lines, in this order: the
version label followed by non-empty text (a colon, a blank and the version
string), then the CPU-info label followed by non-empty text (a colon, a blank
and the CPU-info string). -/
theorem stdout_two_lines (argv : List String) (stdin : String) (ord : EvalOrder)
    (lib : Library) (v c : String)
    (hv : lib .OPENSSL_FULL_VERSION_STRING = .text v) (hc : lib .OPENSSL_CPU_INFO = .text c)
    (nv : NoNewline v) (nc : NoNewline c) :
    ∃ t1 t2 : String, t1 ≠ "" ∧ t2 ≠ "" ∧
      lines (run argv stdin ord lib).1.streams.stdout
        = ["OpenSSL version" ++ t1, "OpenSSL CPU info" ++ t2]
      ∧ t1 = ": " ++ v ∧ t2 = ": " ++ c := by
  refine ⟨": " ++ v, ": " ++ c, ?_, ?_, ?_, rfl, rfl⟩
  · simp [String.ext_iff]
  · simp [String.ext_iff]
  · rw [run_stdout argv stdin ord lib v c hv hc]
    have h1 : '\n' ∉ "OpenSSL version: ".data ++ v.data := by
      intro m
      rcases List.mem_append.mp m with m | m
      · revert m; decide
      · exact nv m
    have h2 : '\n' ∉ "OpenSSL CPU info: ".data ++ c.data := by
      intro m
      rcases List.mem_append.mp m with m | m
      · revert m; decide
      · exact nc m
    have d : ("OpenSSL version: " ++ v ++ "\n" ++ "OpenSSL CPU info: " ++ c ++ "\n").data
        = ("OpenSSL version: ".data ++ v.data) ++
            '\n' :: (("OpenSSL CPU info: ".data ++ c.data) ++ '\n' :: []) := by
      simp [String.data_append]
    unfold lines
    rw [d, linesAux_first _ _ h1, linesAux_first _ _ h2]
    simp [linesAux, String.ext_iff]

/-- Witness of the amended C3: a library answering "3.0.13" and "CPUINFO: N/A". -/
theorem stdout_two_lines_witness :
    ∃ t1 t2 : String, t1 ≠ "" ∧ t2 ≠ "" ∧
      lines (run [] "" .leftToRight (answering "3.0.13" "CPUINFO: N/A")).1.streams.stdout
        = ["OpenSSL version" ++ t1, "OpenSSL CPU info" ++ t2]
      ∧ t1 = ": " ++ "3.0.13" ∧ t2 = ": " ++ "CPUINFO: N/A" :=
  stdout_two_lines [] "" .leftToRight (answering "3.0.13" "CPUINFO: N/A") "3.0.13"
    "CPUINFO: N/A" rfl rfl (by decide) (by decide)

/-- C4: two runs of the program in which the library gives the same answer to
the full-version query and the same answer to the CPU-info query write the
same bytes to standard output (delivered and buffered) and end the same way,
whatever the command lines and the contents of standard input are. -/
theorem run_deterministic (argv argv' : List String) (stdin stdin' : String)
    (ord : EvalOrder) (lib lib' : Library)
    (hv : lib .OPENSSL_FULL_VERSION_STRING = lib' .OPENSSL_FULL_VERSION_STRING)
    (hc : lib .OPENSSL_CPU_INFO = lib' .OPENSSL_CPU_INFO) :
    (run argv stdin ord lib).1.streams.stdout = (run argv' stdin' ord lib').1.streams.stdout
      ∧ (run argv stdin ord lib).1.streams.pending
          = (run argv' stdin' ord lib').1.streams.pending
      ∧ (run argv stdin ord lib).2 = (run argv' stdin' ord lib').2 := by
  cases ord <;>
    cases h1 : lib' .OPENSSL_FULL_VERSION_STRING <;>
    cases h2 : lib' .OPENSSL_CPU_INFO <;>
    simp [run, main, statement, afterCall, OpenSSL_version, cout_insert, cout_insert_null, endl,
      Process.emit, Process.atExit, Event.apply, Process.start, hv, hc, h1, h2]

/-- Witness of C4: two libraries that differ on another selector only, run
with different command lines and different standard inputs. -/
theorem run_deterministic_witness :
    (run ["show-version"] "" .leftToRight (answering "3.0.13" "CPUINFO: N/A")).1.streams.stdout
        = (run ["show-version", "-v"] "input" .leftToRight
            (fun sel => if sel = .other 0 then .text "OpenSSL 3.0.13"
              else answering "3.0.13" "CPUINFO: N/A" sel)).1.streams.stdout
      ∧ (run ["show-version"] "" .leftToRight
            (answering "3.0.13" "CPUINFO: N/A")).1.streams.pending
          = (run ["show-version", "-v"] "input" .leftToRight
              (fun sel => if sel = .other 0 then .text "OpenSSL 3.0.13"
                else answering "3.0.13" "CPUINFO: N/A" sel)).1.streams.pending
      ∧ (run ["show-version"] "" .leftToRight (answering "3.0.13" "CPUINFO: N/A")).2
          = (run ["show-version", "-v"] "input" .leftToRight
              (fun sel => if sel = .other 0 then .text "OpenSSL 3.0.13"
                else answering "3.0.13" "CPUINFO: N/A" sel)).2 :=
  run_deterministic ["show-version"] ["show-version", "-v"] "" "input" .leftToRight
    (answering "3.0.13" "CPUINFO: N/A")
    (fun sel => if sel = .other 0 then .text "OpenSSL 3.0.13"
      else answering "3.0.13" "CPUINFO: N/A" sel)
    (by decide) (by decide)

/-- C6, as stated, fails: standard output is not the version string followed
by a label and a line terminator, then the CPU-info string followed by a label
and a line terminator, whatever the two labels are. -/
theorem text_then_label_counterexample :
    ¬ ∃ l1 l2 : String,
        (run [] "" .leftToRight (answering "3.0.13" "CPUINFO: N/A")).1.streams.stdout
          = "3.0.13" ++ l1 ++ "\n" ++ "CPUINFO: N/A" ++ l2 ++ "\n" := by
  rintro ⟨l1, l2, h⟩
  have e : (run [] "" .leftToRight (answering "3.0.13" "CPUINFO: N/A")).1.streams.stdout
      = "OpenSSL version: 3.0.13\nOpenSSL CPU info: CPUINFO: N/A\n" := by decide
  rw [e] at h
  have h2 := congrArg String.data h
  simp at h2

/-- C6, amended: on standard output main writes both library strings, each
preceded by its descriptive label and followed by a line terminator, in the
order full version, then CPU info; the insertions into std::cout are, in
order, label, string, terminator, label, string, terminator. -/
theorem label_then_text (argv : List String) (stdin : String) (ord : EvalOrder)
    (lib : Library) (v c : String)
    (hv : lib .OPENSSL_FULL_VERSION_STRING = .text v) (hc : lib .OPENSSL_CPU_INFO = .text c) :
    (run argv stdin ord lib).1.streams.stdout
        = ("OpenSSL version: " ++ v ++ "\n") ++ ("OpenSSL CPU info: " ++ c ++ "\n")
      ∧ insertions (run argv stdin ord lib).1.log
          = ["OpenSSL version: ", v, "\n", "OpenSSL CPU info: ", c, "\n"] := by
  constructor
  · rw [run_stdout argv stdin ord lib v c hv hc]
    simp [String.ext_iff]
  · cases ord <;>
      simp [run, main, statement, afterCall, OpenSSL_version, cout_insert, cout_insert_null, endl,
        Process.emit, Process.atExit, Event.apply, Process.start, hv, hc, insertions]

/-- Witness of the amended C6: a library answering "3.0.13" and
"CPUINFO: N/A". -/
theorem label_then_text_witness :
    (run [] "" .leftToRight (answering "3.0.13" "CPUINFO: N/A")).1.streams.stdout
        = ("OpenSSL version: " ++ "3.0.13" ++ "\n") ++ ("OpenSSL CPU info: " ++ "CPUINFO: N/A" ++ "\n")
      ∧ insertions (run [] "" .leftToRight (answering "3.0.13" "CPUINFO: N/A")).1.log
          = ["OpenSSL version: ", "3.0.13", "\n", "OpenSSL CPU info: ", "CPUINFO: N/A", "\n"] :=
  label_then_text [] "" .leftToRight (answering "3.0.13" "CPUINFO: N/A") "3.0.13"
    "CPUINFO: N/A" rfl rfl

/-- C7: when both queries return a string, main, started in any process state,
leaves standard input unread and standard error as it was, and only extends
standard output: when std::cout is in its good state, as it is at the start
of main, by what was buffered in std::cout, then the two lines. -/
theorem only_stdout_extended (ord : EvalOrder) (lib : Library) (p : Process) (v c : String)
    (hv : lib .OPENSSL_FULL_VERSION_STRING = .text v) (hc : lib .OPENSSL_CPU_INFO = .text c) :
    (main ord lib p).1.streams.stdin = p.streams.stdin
      ∧ (main ord lib p).1.streams.stderr = p.streams.stderr
      ∧ (∃ ext : String, (main ord lib p).1.streams.stdout = p.streams.stdout ++ ext)
      ∧ (p.streams.failed = false →
          (main ord lib p).1.streams.stdout
            = p.streams.stdout ++ (p.streams.pending ++
                ("OpenSSL version: " ++ v ++ "\n" ++ "OpenSSL CPU info: " ++ c ++ "\n"))) := by
  cases hg : p.streams.failed
  · rw [(main_returns ord lib p v c hg hv hc).1]
    refine ⟨rfl, rfl, ⟨p.streams.pending ++
      ("OpenSSL version: " ++ v ++ "\n" ++ "OpenSSL CPU info: " ++ c ++ "\n"), ?_⟩, ?_⟩ <;>
    simp [String.ext_iff]
  · refine ⟨?_, ?_, ⟨"", ?_⟩, ?_⟩ <;>
    cases ord <;>
    simp [main, statement, afterCall, OpenSSL_version, cout_insert, endl, Process.emit,
      Event.apply, hg, hv, hc]

/-- Witness of C7: a process with unread input and earlier output on both
output streams. -/
theorem only_stdout_extended_witness :
    (main .leftToRight (answering "3.0.13" "CPUINFO: N/A")
        ⟨⟨"unread", "earlier\n", "warning\n", "", false⟩, []⟩).1.streams.stdin = "unread"
      ∧ (main .leftToRight (answering "3.0.13" "CPUINFO: N/A")
          ⟨⟨"unread", "earlier\n", "warning\n", "", false⟩, []⟩).1.streams.stderr = "warning\n"
      ∧ (∃ ext : String, (main .leftToRight (answering "3.0.13" "CPUINFO: N/A")
          ⟨⟨"unread", "earlier\n", "warning\n", "", false⟩, []⟩).1.streams.stdout
            = "earlier\n" ++ ext)
      ∧ (false = false →
          (main .leftToRight (answering "3.0.13" "CPUINFO: N/A")
            ⟨⟨"unread", "earlier\n", "warning\n", "", false⟩, []⟩).1.streams.stdout
            = "earlier\n" ++ ("" ++
                ("OpenSSL version: " ++ "3.0.13" ++ "\n" ++ "OpenSSL CPU info: " ++ "CPUINFO: N/A"
                  ++ "\n"))) :=
  only_stdout_extended .leftToRight (answering "3.0.13" "CPUINFO: N/A")
    ⟨⟨"unread", "earlier\n", "warning\n", "", false⟩, []⟩ "3.0.13" "CPUINFO: N/A" rfl rfl

/-- C9: the output determines the library's answers when they are single
lines: if v, c, v', c' hold no line terminator and the standard output of a
run with answers v and c equals that of a run with answers v' and c', then
v = v' and c = c'. -/
theorem stdout_injective (argv argv' : List String) (stdin stdin' : String)
    (ord ord' : EvalOrder) (lib lib' : Library) (v c v' c' : String)
    (hv : lib .OPENSSL_FULL_VERSION_STRING = .text v) (hc : lib .OPENSSL_CPU_INFO = .text c)
    (hv' : lib' .OPENSSL_FULL_VERSION_STRING = .text v')
    (hc' : lib' .OPENSSL_CPU_INFO = .text c')
    (nv : NoNewline v) (_nc : NoNewline c) (nv' : NoNewline v') (_nc' : NoNewline c')
    (h : (run argv stdin ord lib).1.streams.stdout
          = (run argv' stdin' ord' lib').1.streams.stdout) :
    v = v' ∧ c = c' := by
  rw [run_stdout argv stdin ord lib v c hv hc,
    run_stdout argv' stdin' ord' lib' v' c' hv' hc'] at h
  have d := congrArg String.data h
  simp only [String.data_append, List.append_assoc] at d
  have d1 := List.append_cancel_left d
  have d2 : v.data ++ '\n' :: ("OpenSSL CPU info: ".data ++ (c.data ++ "\n".data))
      = v'.data ++ '\n' :: ("OpenSSL CPU info: ".data ++ (c'.data ++ "\n".data)) := d1
  obtain ⟨e1, e2⟩ := cut_unique _ _ _ _ nv nv' d2
  have e3 := List.append_cancel_right (List.append_cancel_left e2)
  exact ⟨String.ext e1, String.ext e3⟩

/-- Witness of C9: two runs with the same single-line answers, "3.0.13" and
"CPUINFO: N/A", under different command lines, inputs and evaluation orders. -/
theorem stdout_injective_witness :
    (NoNewline "3.0.13" ∧ NoNewline "CPUINFO: N/A")
      ∧ (run [] "" .leftToRight (answering "3.0.13" "CPUINFO: N/A")).1.streams.stdout
          = (run ["-v"] "input" .callFirst (answering "3.0.13" "CPUINFO: N/A")).1.streams.stdout
      ∧ ("3.0.13" = "3.0.13" ∧ "CPUINFO: N/A" = "CPUINFO: N/A") :=
  ⟨⟨by decide, by decide⟩, by decide,
    stdout_injective [] ["-v"] "" "input" .leftToRight .callFirst
      (answering "3.0.13" "CPUINFO: N/A") (answering "3.0.13" "CPUINFO: N/A")
      "3.0.13" "CPUINFO: N/A" "3.0.13" "CPUINFO: N/A" rfl rfl rfl rfl
      (by decide) (by decide) (by decide) (by decide) (by decide)⟩

end ShowVersion
